import Mathlib

/-!
Verification of the ContextAware browser extension core.

This file shallowly embeds the storage layer (`src/utils/storage.ts`,
class `StorageManager`), the background service worker message handlers
(`background.ts`: `chrome.runtime.onMessage` listener,
`handleLocalSummarization`, `handleCloudSummarization`, `handleGetContext`,
`handleSaveSummary`), the AI service (`src/services/ai.ts`, class
`AIService`), and the content script's text-selection listener
(`setupTextSelectionListener`).

Modelling conventions:
- `chrome.storage.local` / `chrome.storage.sync` are modelled as a `Backend`
  record holding the three persisted values plus per-primitive failure flags
  (each flag makes the corresponding storage call throw) and a `trace` that
  records every storage primitive invoked.
- JavaScript objects used as string-keyed maps (`Record<string, T>`) are
  modelled as association lists in key insertion order, matching JS
  enumeration order for non-integer string keys: assigning to an existing
  key updates in place, a fresh key is appended.
- A thrown JS exception is modelled as `Except.error` / an `Option String`
  error component; `try/catch` blocks are translated explicitly.
- `Array.prototype.sort` is stable per the ECMAScript spec; a stable sort's
  output is uniquely determined by the comparator, so it is modelled by the
  (stable) insertion sort `List.insertionSort`.
- Timestamps (`Date.now()`) are passed in explicitly as a `now : Nat`
  parameter.
-/

namespace ContextAware

/-- `'local' | 'cloud'` (the `AIMode` type of `types.ts`); `local` is a Lean
keyword, so the constructors are `localMode` / `cloudMode`. -/
inductive AIMode where
  | localMode
  | cloudMode
deriving DecidableEq, Repr

/-- `Summary` interface of `storage.ts`: `{url, summary, mode, timestamp}`. -/
structure Summary where
  url : String
  summary : String
  mode : AIMode
  timestamp : Nat
deriving DecidableEq, Repr

/-- `BrowsingContext` interface of `storage.ts`:
`{domain, visits, lastVisit, summaries}`. -/
structure BrowsingContext where
  domain : String
  visits : Nat
  lastVisit : Nat
  summaries : List Summary
deriving DecidableEq, Repr

/-- `'light' | 'dark'`. -/
inductive Theme where
  | light
  | dark
deriving DecidableEq, Repr

/-- A possibly-partial `Settings` object (`Partial<Settings>` of
`storage.ts`). Stored settings are modelled with optional fields as well,
because `setSettings` can persist `{...null, ...partialUpdate}`, an object in
which unnamed fields are simply absent. -/
structure PartialSettings where
  theme : Option Theme := none
  defaultAIMode : Option AIMode := none
  enableSpeech : Option Bool := none
  autoSummarize : Option Bool := none
deriving DecidableEq, Repr

/-- JS object property read `m[k]` on a `Record<string, T>`. -/
def getKey {α : Type} (m : List (String × α)) (k : String) : Option α :=
  (m.find? (fun p => p.1 == k)).map (fun p => p.2)

/-- JS object property write `m[k] = v` on a `Record<string, T>`: updates an
existing key in place, appends a fresh key (JS enumeration order). -/
def setKey {α : Type} (m : List (String × α)) (k : String) (v : α) :
    List (String × α) :=
  if m.any (fun p => p.1 == k) then
    m.map (fun p => if p.1 == k then (k, v) else p)
  else
    m ++ [(k, v)]

/-- JS `String.prototype.trim()`: strip leading and trailing whitespace.
Defined structurally on the character list so that it evaluates by `decide`
(the library `String.trim` is not kernel-reducible). -/
def jsTrim (s : String) : String :=
  String.mk (((s.data.dropWhile Char.isWhitespace).reverse.dropWhile
    Char.isWhitespace).reverse)

/-- JS `s.split(/\s+/)`: `""` gives `[""]`; otherwise the maximal
non-whitespace runs, with an extra empty string at the front (resp. back)
when the string starts (resp. ends) with whitespace. -/
def jsSplitWs (s : String) : List String :=
  if s.isEmpty then [""]
  else
    let toks := (s.split Char.isWhitespace).filter (fun t => !t.isEmpty)
    let toks := if s.front.isWhitespace then "" :: toks else toks
    if s.back.isWhitespace then toks ++ [""] else toks

/-- Comparator `(a, b) => b[1].timestamp - a[1].timestamp` of
`StorageManager.saveSummary` (sort by timestamp, descending). -/
def summaryDescOrder (a b : String × Summary) : Prop :=
  b.2.timestamp ≤ a.2.timestamp

instance : DecidableRel summaryDescOrder :=
  fun a b => Nat.decLe b.2.timestamp a.2.timestamp

instance : IsTotal (String × Summary) summaryDescOrder :=
  ⟨fun a b => (Nat.le_total a.2.timestamp b.2.timestamp).symm⟩

instance : IsTrans (String × Summary) summaryDescOrder :=
  ⟨fun _ _ _ hab hbc => Nat.le_trans hbc hab⟩

/-- Comparator `(a, b) => b.lastVisit - a.lastVisit` of
`StorageManager.getContext` (sort by last visit, descending). -/
def contextDescOrder (a b : BrowsingContext) : Prop :=
  b.lastVisit ≤ a.lastVisit

instance : DecidableRel contextDescOrder :=
  fun a b => Nat.decLe b.lastVisit a.lastVisit

/-- The extension's persisted state plus a failure model for the Chrome
storage primitives. Each `...Fails` flag makes the corresponding
`chrome.storage` call throw. `trace` records every storage primitive call. -/
structure Backend where
  summaries : List (String × Summary)
  contexts : List (String × BrowsingContext)
  settings : Option PartialSettings
  localGetFails : Bool := false
  localSetFails : Bool := false
  syncGetFails : Bool := false
  syncSetFails : Bool := false
  localClearFails : Bool := false
  syncClearFails : Bool := false
  trace : List String := []
deriving DecidableEq, Repr

/-- The three persisted values, without the failure model or trace; used to
state that an operation is a no-op on the durable data. -/
def storeData (b : Backend) :
    List (String × Summary) × List (String × BrowsingContext) ×
      Option PartialSettings :=
  (b.summaries, b.contexts, b.settings)

/-- `chrome.storage.local.get(SUMMARIES)` followed by `result[key] || {}`. -/
def localGetSummaries (b : Backend) :
    Backend × Except String (List (String × Summary)) :=
  let b1 := { b with trace := b.trace ++ ["local.get summaries"] }
  if b.localGetFails then (b1, Except.error "storage unavailable")
  else (b1, Except.ok b.summaries)

/-- `chrome.storage.local.set({ [SUMMARIES]: m })`. -/
def localSetSummaries (b : Backend) (m : List (String × Summary)) :
    Backend × Option String :=
  let b1 := { b with trace := b.trace ++ ["local.set summaries"] }
  if b.localSetFails then (b1, some "quota exceeded")
  else ({ b1 with summaries := m }, none)

/-- `chrome.storage.local.get(CONTEXT)` followed by `result[key] || {}`. -/
def localGetContexts (b : Backend) :
    Backend × Except String (List (String × BrowsingContext)) :=
  let b1 := { b with trace := b.trace ++ ["local.get context"] }
  if b.localGetFails then (b1, Except.error "storage unavailable")
  else (b1, Except.ok b.contexts)

/-- `chrome.storage.local.set({ [CONTEXT]: m })`. -/
def localSetContexts (b : Backend) (m : List (String × BrowsingContext)) :
    Backend × Option String :=
  let b1 := { b with trace := b.trace ++ ["local.set context"] }
  if b.localSetFails then (b1, some "quota exceeded")
  else ({ b1 with contexts := m }, none)

/-- `chrome.storage.sync.get(SETTINGS)` followed by `result[key] || null`. -/
def syncGetSettings (b : Backend) :
    Backend × Except String (Option PartialSettings) :=
  let b1 := { b with trace := b.trace ++ ["sync.get settings"] }
  if b.syncGetFails then (b1, Except.error "storage unavailable")
  else (b1, Except.ok b.settings)

/-- `chrome.storage.sync.set({ [SETTINGS]: s })`. -/
def syncSetSettings (b : Backend) (s : PartialSettings) :
    Backend × Option String :=
  let b1 := { b with trace := b.trace ++ ["sync.set settings"] }
  if b.syncSetFails then (b1, some "quota exceeded")
  else ({ b1 with settings := some s }, none)

/-- `chrome.storage.local.clear()` (clears the summaries and context
partitions, which both live in local storage). -/
def localClear (b : Backend) : Backend × Option String :=
  let b1 := { b with trace := b.trace ++ ["local.clear"] }
  if b.localClearFails then (b1, some "storage unavailable")
  else ({ b1 with summaries := [], contexts := [] }, none)

/-- `chrome.storage.sync.clear()` (clears the settings). -/
def syncClear (b : Backend) : Backend × Option String :=
  let b1 := { b with trace := b.trace ++ ["sync.clear"] }
  if b.syncClearFails then (b1, some "storage unavailable")
  else ({ b1 with settings := none }, none)

/-- A `try { body } catch (error) { console.error(...) }` around a
`Promise<void>` body: the state reached by the body is kept, the exception
(if any) is swallowed, nothing is rethrown. -/
def swallow (r : Backend × Option String) : Backend × Option String :=
  (r.1, none)

namespace StorageManager

/-- Pure core of `StorageManager.saveSummary`: write
`summaries[url] = {url, summary, mode, timestamp: Date.now()}`, then, if
`Object.entries(summaries).length > 100`, sort the entries by timestamp
descending (stable) and keep the first 100. -/
def saveSummaryPure (summaries : List (String × Summary))
    (url content : String) (mode : AIMode) (now : Nat) :
    List (String × Summary) :=
  let s := setKey summaries url
    { url := url, summary := content, mode := mode, timestamp := now }
  if s.length > 100 then (List.insertionSort summaryDescOrder s).take 100
  else s

/-- Body of `StorageManager.saveSummary` before its `catch`: `await get`,
mutate, `await set`. Returns the backend state reached plus the exception, if
one was thrown. -/
def saveSummaryBody (b : Backend) (url content : String) (mode : AIMode)
    (now : Nat) : Backend × Option String :=
  let (b1, got) := localGetSummaries b
  match got with
  | Except.error e => (b1, some e)
  | Except.ok summaries =>
      localSetSummaries b1 (saveSummaryPure summaries url content mode now)

/-- `StorageManager.saveSummary(url, summary, mode)`: the body wrapped in
`try/catch` — a storage failure is logged and swallowed. -/
def saveSummary (b : Backend) (url content : String) (mode : AIMode)
    (now : Nat) : Backend × Option String :=
  swallow (saveSummaryBody b url content mode now)

/-- `StorageManager.getSummary(url)`: read the summaries map and index it;
on a storage failure the `catch` returns `null`. -/
def getSummary (b : Backend) (url : String) : Backend × Option Summary :=
  let (b1, got) := localGetSummaries b
  match got with
  | Except.error _ => (b1, none)
  | Except.ok summaries => (b1, getKey summaries url)

/-- `StorageManager.getSettings()`: read the settings value; the `catch`
returns `null` on a storage failure. -/
def getSettings (b : Backend) : Backend × Option PartialSettings :=
  let (b1, got) := syncGetSettings b
  match got with
  | Except.error _ => (b1, none)
  | Except.ok s => (b1, s)

/-- The object spread `{...currentSettings, ...settings}` of
`StorageManager.setSettings`: fields present in the update win, absent fields
fall back to the current object; spreading `null` contributes nothing. -/
def mergeSettings (current : Option PartialSettings) (upd : PartialSettings) :
    PartialSettings :=
  let cur := current.getD {}
  { theme := match upd.theme with | some v => some v | none => cur.theme,
    defaultAIMode :=
      match upd.defaultAIMode with | some v => some v | none => cur.defaultAIMode,
    enableSpeech :=
      match upd.enableSpeech with | some v => some v | none => cur.enableSpeech,
    autoSummarize :=
      match upd.autoSummarize with | some v => some v | none => cur.autoSummarize }

/-- Body of `StorageManager.setSettings` before its `catch`: read the current
settings through `getSettings` (which itself swallows read failures and
yields `null`), merge, and write. -/
def setSettingsBody (b : Backend) (upd : PartialSettings) :
    Backend × Option String :=
  let (b1, current) := getSettings b
  syncSetSettings b1 (mergeSettings current upd)

/-- `StorageManager.setSettings(settings)` with its `try/catch`. -/
def setSettings (b : Backend) (upd : PartialSettings) :
    Backend × Option String :=
  swallow (setSettingsBody b upd)

/-- Pure core of `StorageManager.updateContext`: create the
`BrowsingContext` on first call for a domain, increment `visits`, update
`lastVisit`, and, when a summary is supplied, push it and keep only the last
10 (`slice(-10)`). -/
def updateContextPure (contexts : List (String × BrowsingContext))
    (domain : String) (summary : Option Summary) (now : Nat) :
    List (String × BrowsingContext) :=
  let ctx :=
    match getKey contexts domain with
    | some c => c
    | none => { domain := domain, visits := 0, lastVisit := now, summaries := [] }
  let ctx := { ctx with visits := ctx.visits + 1, lastVisit := now }
  let ctx :=
    match summary with
    | some s =>
        let ss := ctx.summaries ++ [s]
        { ctx with summaries := if ss.length > 10 then ss.drop (ss.length - 10) else ss }
    | none => ctx
  setKey contexts domain ctx

/-- Body of `StorageManager.updateContext` before its `catch`. -/
def updateContextBody (b : Backend) (domain : String)
    (summary : Option Summary) (now : Nat) : Backend × Option String :=
  let (b1, got) := localGetContexts b
  match got with
  | Except.error e => (b1, some e)
  | Except.ok contexts =>
      localSetContexts b1 (updateContextPure contexts domain summary now)

/-- `StorageManager.updateContext(domain, summary?)` with its `try/catch`. -/
def updateContext (b : Backend) (domain : String) (summary : Option Summary)
    (now : Nat) : Backend × Option String :=
  swallow (updateContextBody b domain summary now)

/-- `StorageManager.getContext(domain?)`: one-or-zero element list for a
given domain, else all contexts sorted by `lastVisit` descending; the
`catch` returns `[]` on a storage failure. -/
def getContext (b : Backend) (domain : Option String) :
    Backend × List BrowsingContext :=
  let (b1, got) := localGetContexts b
  match got with
  | Except.error _ => (b1, [])
  | Except.ok contexts =>
      match domain with
      | some d =>
          (b1, match getKey contexts d with | some c => [c] | none => [])
      | none =>
          (b1, List.insertionSort contextDescOrder (contexts.map (fun p => p.2)))

/-- Body of `StorageManager.clearAll` before its `catch`:
`await chrome.storage.local.clear(); await chrome.storage.sync.clear()` —
when the first clear succeeds and the second throws, the local partition
stays cleared. -/
def clearAllBody (b : Backend) : Backend × Option String :=
  let (b1, r1) := localClear b
  match r1 with
  | some e => (b1, some e)
  | none => syncClear b1

/-- `StorageManager.clearAll()` with its `try/catch`. -/
def clearAll (b : Backend) : Backend × Option String :=
  swallow (clearAllBody b)

end StorageManager

/-- A structured reply object sent with `sendResponse` (the optional fields
of `SummarizeResponse` in `types.ts`, plus the `context` field used by the
`GET_CONTEXT` reply). Absent fields are `none`. -/
structure Reply where
  success : Bool
  summary : Option String := none
  mode : Option AIMode := none
  timestamp : Option Nat := none
  context : Option (List BrowsingContext) := none
  error : Option String := none
deriving DecidableEq, Repr

/-- A `SummarizeRequest` as it arrives over untyped messaging: any field may
be `undefined` (`none`). -/
structure RawSummarizeRequest where
  text : Option String := none
  url : Option String := none
  prompt : Option String := none
deriving DecidableEq, Repr

/-- The JS `TypeError` thrown by a property access such as `text.length` or
`text.split` when `text` is `undefined` (the exact host message is
irrelevant; only that an exception of this kind is thrown). -/
def typeErrorMessage : String := "TypeError: undefined has no properties"

/-- Property access on a possibly-`undefined` string: throws a `TypeError`
when the value is `undefined`. -/
def jsString (v : Option String) : Except String String :=
  match v with
  | some s => Except.ok s
  | none => Except.error typeErrorMessage

namespace AIService

/-- `AIService.generatePlaceholderSummary(text, mode)` (private helper):
word/character counts interpolated into a fixed template. -/
def generatePlaceholderSummary (text : String) (mode : AIMode) : String :=
  let wordCount := (jsSplitWs text).length
  let charCount := text.length
  match mode with
  | AIMode.localMode =>
      "⚡ LOCAL AI SUMMARY (Placeholder)\n\nThis is a placeholder for the Chrome AI Summarization API (Gemini Nano).\n\nAnalyzed content: "
        ++ toString wordCount ++ " words, " ++ toString charCount
        ++ " characters.\n\nKey points:\n• Fast on-device processing\n• No internet required\n• Privacy-focused local analysis\n• Powered by Gemini Nano\n\nTODO: Replace with actual chrome.ai.summarizer.create() call in src/services/ai.ts"
  | AIMode.cloudMode =>
      "☁️ CLOUD AI ANALYSIS (Placeholder)\n\nThis is a placeholder for the Chrome Cloud AI API (Gemini 1.5 Pro).\n\nAnalyzed content: "
        ++ toString wordCount ++ " words, " ++ toString charCount
        ++ " characters.\n\nDeep insights:\n• Comprehensive reasoning and analysis\n• Advanced language understanding\n• Contextual awareness across paragraphs\n• Powered by Gemini 1.5 Pro\n\nTODO: Replace with actual chrome.ai.languageModel.create() call in src/services/ai.ts"

/-- Body of `AIService.summarizeLocal` before its `catch`: the only fallible
step is the `request.text.length` access in its logging call (the delay and
the placeholder generation cannot throw). -/
def summarizeLocalBody (request : RawSummarizeRequest) (now : Nat) :
    Except String Reply :=
  match jsString request.text with
  | Except.error e => Except.error e
  | Except.ok t =>
      Except.ok
        { success := true,
          summary := some (generatePlaceholderSummary t AIMode.localMode),
          mode := some AIMode.localMode, timestamp := some now }

/-- `AIService.summarizeLocal(request)`: on any exception the `catch`
returns the structured `{success: false, error}` object. -/
def summarizeLocal (request : RawSummarizeRequest) (now : Nat) : Reply :=
  match summarizeLocalBody request now with
  | Except.ok r => r
  | Except.error e => { success := false, error := some e }

/-- Body of `AIService.analyzeCloud` before its `catch`. -/
def analyzeCloudBody (request : RawSummarizeRequest) (now : Nat) :
    Except String Reply :=
  match jsString request.text with
  | Except.error e => Except.error e
  | Except.ok t =>
      Except.ok
        { success := true,
          summary := some (generatePlaceholderSummary t AIMode.cloudMode),
          mode := some AIMode.cloudMode, timestamp := some now }

/-- `AIService.analyzeCloud(request)`: on any exception the `catch` returns
the structured `{success: false, error}` object. -/
def analyzeCloud (request : RawSummarizeRequest) (now : Nat) : Reply :=
  match analyzeCloudBody request now with
  | Except.ok r => r
  | Except.error e => { success := false, error := some e }

/-- Body of `AIService.streamAnalysis` before its `catch`: split the
placeholder summary on single spaces and yield each word with a trailing
space; the `request.text` access can throw. The produced stream is modelled
as the list of yielded fragments. -/
def streamAnalysisBody (request : RawSummarizeRequest) :
    Except String (List String) :=
  match jsString request.text with
  | Except.error e => Except.error e
  | Except.ok t =>
      Except.ok
        (((generatePlaceholderSummary t AIMode.cloudMode).splitOn " ").map
          (fun w => w ++ " "))

/-- `AIService.streamAnalysis(request)`: its `catch` block logs the error
and **rethrows** it (`throw error`), so a failure escapes to the consumer of
the generator instead of becoming a structured reply. -/
def streamAnalysis (request : RawSummarizeRequest) :
    Except String (List String) :=
  match streamAnalysisBody request with
  | Except.ok ws => Except.ok ws
  | Except.error e => Except.error e

end AIService

namespace Background

/-- The `data` field of a `SUMMARIZE_LOCAL` / `SUMMARIZE_CLOUD` message as
the background handlers receive it (any field may be `undefined`). -/
structure RawSummarizeData where
  text : Option String := none
  url : Option String := none
deriving DecidableEq, Repr

/-- The `data` field of a well-formed `SAVE_SUMMARY` message. -/
structure SaveSummaryData where
  url : String
  summary : String
  mode : AIMode
deriving DecidableEq, Repr

/-- The placeholder reply text of `handleLocalSummarization`. -/
def localPlaceholderSummary : String :=
  "[Local AI Summary] This is a placeholder. Integrate Chrome AI Summarization API here."

/-- The placeholder reply text of `handleCloudSummarization`. -/
def cloudPlaceholderSummary : String :=
  "[Cloud AI Summary] This is a placeholder. Integrate Chrome Cloud AI API (Gemini 1.5 Pro) here."

/-- Body of `handleLocalSummarization` before its `catch`: the only fallible
step is the `data.text.length` access in its logging call; the reply is the
fixed placeholder with `mode: 'local'` and `timestamp: Date.now()`. No
engine and no storage call occurs in this function. -/
def handleLocalSummarizationBody (data : RawSummarizeData) (now : Nat) :
    Except String Reply :=
  match jsString data.text with
  | Except.error e => Except.error e
  | Except.ok _ =>
      Except.ok
        { success := true, summary := some localPlaceholderSummary,
          mode := some AIMode.localMode, timestamp := some now }

/-- `handleLocalSummarization(data, sendResponse)`: the `catch` sends the
structured `{success: false, error}` reply. -/
def handleLocalSummarization (data : RawSummarizeData) (now : Nat) : Reply :=
  match handleLocalSummarizationBody data now with
  | Except.ok r => r
  | Except.error e => { success := false, error := some e }

/-- Body of `handleCloudSummarization` before its `catch`. -/
def handleCloudSummarizationBody (data : RawSummarizeData) (now : Nat) :
    Except String Reply :=
  match jsString data.text with
  | Except.error e => Except.error e
  | Except.ok _ =>
      Except.ok
        { success := true, summary := some cloudPlaceholderSummary,
          mode := some AIMode.cloudMode, timestamp := some now }

/-- `handleCloudSummarization(data, sendResponse)`. -/
def handleCloudSummarization (data : RawSummarizeData) (now : Nat) : Reply :=
  match handleCloudSummarizationBody data now with
  | Except.ok r => r
  | Except.error e => { success := false, error := some e }

/-- `handleGetContext(data, sendResponse)`: `StorageManager.getContext`
swallows its own failures and resolves with a list, so the handler's `catch`
is unreachable and the reply is always `{success: true, context}`. -/
def handleGetContext (domain : Option String) (b : Backend) :
    Reply × Backend :=
  let (b1, ctxs) := StorageManager.getContext b domain
  ({ success := true, context := some ctxs }, b1)

/-- `handleSaveSummary(data, sendResponse)`: awaits
`StorageManager.saveSummary` (which swallows storage failures and never
rejects), then replies `{success: true}`; the `catch` branch replies
`{success: false, error}` but is unreachable. -/
def handleSaveSummary (data : SaveSummaryData) (b : Backend) (now : Nat) :
    Reply × Backend :=
  let (b1, e) := StorageManager.saveSummary b data.url data.summary data.mode now
  match e with
  | none => ({ success := true }, b1)
  | some msg => ({ success := false, error := some msg }, b1)

/-- An incoming `chrome.runtime.onMessage` envelope, by `type`. -/
inductive Msg where
  | summarizeLocal (data : RawSummarizeData)
  | summarizeCloud (data : RawSummarizeData)
  | getContext (domain : Option String)
  | saveSummary (data : SaveSummaryData)
  | unknown (ty : String)
deriving DecidableEq, Repr

/-- The background `chrome.runtime.onMessage` listener: dispatches on
`message.type` and sends exactly one structured reply; unknown types reply
`{success: false, error: 'Unknown message type'}`. Returns the reply and the
backend state after the handler ran. -/
def onMessage (msg : Msg) (b : Backend) (now : Nat) : Reply × Backend :=
  match msg with
  | Msg.summarizeLocal data => (handleLocalSummarization data now, b)
  | Msg.summarizeCloud data => (handleCloudSummarization data now, b)
  | Msg.getContext domain => handleGetContext domain b
  | Msg.saveSummary data => handleSaveSummary data b now
  | Msg.unknown _ =>
      ({ success := false, error := some "Unknown message type" }, b)

end Background

/-- The content script's `setupTextSelectionListener` `mouseup` handler
(source shown in `README.md`): with the current selection
(`window.getSelection()?.toString()`, `none` when there is no selection
object), the floating button gets the `has-selection` class exactly when
`selectedText && selectedText.length > 50` holds for the trimmed text.
Returns whether the class is present after the event. -/
def mouseupSelectionState (selection : Option String) : Bool :=
  match selection.map (fun s => jsTrim s) with
  | none => false
  | some selectedText =>
      !selectedText.isEmpty && decide (50 < selectedText.length)

/-- A backend with empty storage and no injected failures. -/
def emptyBackend : Backend :=
  { summaries := [], contexts := [], settings := none }

/-! ### Association-list lemmas for the JS object model -/

theorem find?_map_setKey {α : Type} (m : List (String × α)) (k : String)
    (v : α) (h : m.any (fun p => p.1 == k) = true) :
    (m.map (fun p => if p.1 == k then (k, v) else p)).find?
        (fun p => p.1 == k) = some (k, v) := by
  induction m with
  | nil => simp at h
  | cons p rest ih =>
      by_cases hp : (p.1 == k) = true
      · have hpk : p.1 = k := by simpa using hp
        simp [List.find?_cons, hpk]
      · have hr : rest.any (fun p => p.1 == k) = true := by
          simp only [List.any_cons, Bool.or_eq_true] at h
          exact h.resolve_left hp
        have hpk : ¬ p.1 = k := by simpa using hp
        simpa [List.find?_cons, hpk] using ih hr

theorem find?_append_key {α : Type} (m : List (String × α)) (k : String)
    (v : α) (h : m.any (fun p => p.1 == k) = false) :
    (m ++ [(k, v)]).find? (fun p => p.1 == k) = some (k, v) := by
  induction m with
  | nil => simp
  | cons p rest ih =>
      simp only [List.any_cons, Bool.or_eq_false_iff] at h
      simp only [List.cons_append, List.find?_cons, h.1]
      exact ih h.2

/-- Reading back the key just written returns the value just written. -/
theorem getKey_setKey_self {α : Type} (m : List (String × α)) (k : String)
    (v : α) : getKey (setKey m k v) k = some v := by
  unfold getKey setKey
  by_cases h : m.any (fun p => p.1 == k) = true
  · rw [if_pos h, find?_map_setKey m k v h]
    rfl
  · have hf : m.any (fun p => p.1 == k) = false := by
      revert h; cases m.any (fun p => p.1 == k) <;> simp
    rw [if_neg h, find?_append_key m k v hf]
    rfl

/-- Every entry of `setKey m k v` is either the written pair or an entry of
the original map. -/
theorem mem_setKey {α : Type} {m : List (String × α)} {k : String} {v : α}
    {x : String × α} (hx : x ∈ setKey m k v) : x = (k, v) ∨ x ∈ m := by
  unfold setKey at hx
  by_cases h : m.any (fun p => p.1 == k) = true
  · rw [if_pos h] at hx
    obtain ⟨p, hp, hfx⟩ := List.mem_map.mp hx
    by_cases hpk : (p.1 == k) = true
    · left; rw [← hfx, if_pos hpk]
    · right; rw [← hfx, if_neg hpk]; exact hp
  · rw [if_neg h] at hx
    rcases List.mem_append.mp hx with h1 | h2
    · right; exact h1
    · left; simpa using h2

/-- The written pair is an entry of `setKey m k v`. -/
theorem self_mem_setKey {α : Type} (m : List (String × α)) (k : String)
    (v : α) : (k, v) ∈ setKey m k v := by
  unfold setKey
  by_cases h : m.any (fun p => p.1 == k) = true
  · rw [if_pos h]
    obtain ⟨p, hp, hpk⟩ := List.any_eq_true.mp h
    exact List.mem_map.mpr ⟨p, hp, by simp [hpk]⟩
  · rw [if_neg h]
    exact List.mem_append.mpr (Or.inr (by simp))

/-- `setKey` grows the map by at most one entry. -/
theorem length_setKey_le {α : Type} (m : List (String × α)) (k : String)
    (v : α) : (setKey m k v).length ≤ m.length + 1 := by
  unfold setKey
  by_cases h : m.any (fun p => p.1 == k) = true
  · rw [if_pos h, List.length_map]; omega
  · rw [if_neg h, List.length_append]; simp

/-! ### Round-trip and eviction lemmas for `saveSummary` -/

/-- After `saveSummaryPure`, the key just written maps to the summary just
written, provided every previously stored timestamp is older than `now` (so
that the fresh entry cannot be the eviction victim). -/
theorem getKey_saveSummaryPure_self (m : List (String × Summary))
    (url content : String) (mode : AIMode) (now : Nat)
    (hts : ∀ e ∈ m, e.2.timestamp < now) :
    getKey (StorageManager.saveSummaryPure m url content mode now) url
      = some { url := url, summary := content, mode := mode, timestamp := now } := by
  unfold StorageManager.saveSummaryPure
  by_cases hlen :
      (setKey m url
        { url := url, summary := content, mode := mode, timestamp := now }).length > 100
  · rw [if_pos hlen]
    set v : Summary :=
      { url := url, summary := content, mode := mode, timestamp := now } with hv
    set s := setKey m url v with hsdef
    have hperm := List.perm_insertionSort summaryDescOrder s
    have hsorted := List.sorted_insertionSort summaryDescOrder s
    have hmem : (url, v) ∈ List.insertionSort summaryDescOrder s :=
      (List.mem_insertionSort summaryDescOrder).mpr (self_mem_setKey m url v)
    obtain ⟨h, t, hcons⟩ :
        ∃ h t, List.insertionSort summaryDescOrder s = h :: t := by
      cases hsort : List.insertionSort summaryDescOrder s with
      | nil => rw [hsort] at hmem; cases hmem
      | cons a l => exact ⟨a, l, rfl⟩
    have hhead : h = (url, v) := by
      rw [hcons] at hmem hsorted hperm
      rcases List.mem_cons.mp hmem with heq | htail
      · exact heq.symm
      · have hh_mem : h ∈ s := hperm.subset (List.mem_cons_self h t)
        rcases mem_setKey hh_mem with heq2 | hin
        · exact heq2
        · have hlt : h.2.timestamp < now := hts h hin
          have hord : summaryDescOrder h (url, v) :=
            (List.sorted_cons.mp hsorted).1 _ htail
          have : now ≤ h.2.timestamp := hord
          omega
    rw [hcons, hhead]
    have h100 : (100 : Nat) = 99 + 1 := rfl
    rw [h100, List.take_succ_cons]
    unfold getKey
    simp [List.find?_cons]
  · rw [if_neg hlen]
    exact getKey_setKey_self m url
      { url := url, summary := content, mode := mode, timestamp := now }

/-- `saveSummary` followed by `getSummary` round-trips at the backend level
when the storage primitives succeed and the fresh timestamp is newer than
every stored one. -/
theorem saveSummary_getSummary_roundtrip (b : Backend) (url content : String)
    (mode : AIMode) (now : Nat) (hg : b.localGetFails = false)
    (hs : b.localSetFails = false)
    (hts : ∀ e ∈ b.summaries, e.2.timestamp < now) :
    (StorageManager.getSummary
        (StorageManager.saveSummary b url content mode now).1 url).2
      = some { url := url, summary := content, mode := mode, timestamp := now } := by
  simp [StorageManager.saveSummary, StorageManager.saveSummaryBody,
    StorageManager.getSummary, localGetSummaries, localSetSummaries, swallow,
    hg, hs, getKey_saveSummaryPure_self b.summaries url content mode now hts]

/-! ### Failure-handling lemmas for the write operations -/

/-- `saveSummary` leaves the durable data untouched when either storage
primitive it uses fails. -/
theorem saveSummary_noop_on_failure (b : Backend) (url content : String)
    (mode : AIMode) (now : Nat)
    (h : b.localGetFails = true ∨ b.localSetFails = true) :
    storeData (StorageManager.saveSummary b url content mode now).1
      = storeData b := by
  cases hg : b.localGetFails with
  | true =>
      simp [StorageManager.saveSummary, StorageManager.saveSummaryBody,
        localGetSummaries, swallow, hg, storeData]
  | false =>
      have hs : b.localSetFails = true := by
        rcases h with h | h
        · rw [hg] at h; cases h
        · exact h
      simp [StorageManager.saveSummary, StorageManager.saveSummaryBody,
        localGetSummaries, localSetSummaries, swallow, hg, hs, storeData]

/-- `updateContext` leaves the durable data untouched when either storage
primitive it uses fails. -/
theorem updateContext_noop_on_failure (b : Backend) (domain : String)
    (summary : Option Summary) (now : Nat)
    (h : b.localGetFails = true ∨ b.localSetFails = true) :
    storeData (StorageManager.updateContext b domain summary now).1
      = storeData b := by
  cases hg : b.localGetFails with
  | true =>
      simp [StorageManager.updateContext, StorageManager.updateContextBody,
        localGetContexts, swallow, hg, storeData]
  | false =>
      have hs : b.localSetFails = true := by
        rcases h with h | h
        · rw [hg] at h; cases h
        · exact h
      simp [StorageManager.updateContext, StorageManager.updateContextBody,
        localGetContexts, localSetContexts, swallow, hg, hs, storeData]

/-- `setSettings` leaves the durable data untouched when its write fails and
its read succeeded. -/
theorem setSettings_noop_on_write_failure (b : Backend)
    (upd : PartialSettings) (hs : b.syncSetFails = true) :
    storeData (StorageManager.setSettings b upd).1 = storeData b := by
  cases hg : b.syncGetFails with
  | true =>
      simp [StorageManager.setSettings, StorageManager.setSettingsBody,
        StorageManager.getSettings, syncGetSettings, syncSetSettings, swallow,
        hg, hs, storeData]
  | false =>
      simp [StorageManager.setSettings, StorageManager.setSettingsBody,
        StorageManager.getSettings, syncGetSettings, syncSetSettings, swallow,
        hg, hs, storeData]

/-- When the settings read fails but the write succeeds, `setSettings`
replaces the stored settings with the merge of `null` and the update, i.e.
with just the update. -/
theorem setSettings_overwrites_on_read_failure (b : Backend)
    (upd : PartialSettings) (hg : b.syncGetFails = true)
    (hs : b.syncSetFails = false) :
    (StorageManager.setSettings b upd).1.settings
      = some (StorageManager.mergeSettings none upd) := by
  simp [StorageManager.setSettings, StorageManager.setSettingsBody,
    StorageManager.getSettings, syncGetSettings, syncSetSettings, swallow,
    hg, hs]

/-- `clearAll` is a no-op on the durable data when its first clear fails. -/
theorem clearAll_noop_on_first_failure (b : Backend)
    (h : b.localClearFails = true) :
    storeData (StorageManager.clearAll b).1 = storeData b := by
  simp [StorageManager.clearAll, StorageManager.clearAllBody, localClear,
    swallow, h, storeData]

/-! ### Concrete scenarios from the testable properties -/

/-- The summaries map after 101 `saveSummary` writes with 101 distinct urls
`u0 … u100` and strictly increasing timestamps `0 … 100`. -/
def c3Store : List (String × Summary) :=
  (List.range 101).foldl
    (fun m i =>
      StorageManager.saveSummaryPure m ("u" ++ toString i) "c"
        AIMode.localMode i) []

/-- The context map after 11 `updateContext` calls for the same domain, each
supplying a distinct summary, at times `0 … 10`. -/
def c4Ctx : List (String × BrowsingContext) :=
  (List.range 11).foldl
    (fun m i =>
      StorageManager.updateContextPure m "site"
        (some { url := "u", summary := toString i, mode := AIMode.localMode,
                timestamp := i }) i) []

/-! ### Claim theorems -/

/-- C1, counterexample: a `SUMMARIZE_LOCAL` request whose `text` is the
empty string is **not** rejected with a structured `InvalidRequest` error —
the handler replies `success: true` with the placeholder summary. -/
theorem c1_counterexample :
    (Background.onMessage
        (Background.Msg.summarizeLocal { text := some "", url := none })
        emptyBackend 0).1
      = { success := true, summary := some Background.localPlaceholderSummary,
          mode := some AIMode.localMode, timestamp := some 0 } := rfl

/-- C1 (amended): the summarization handlers perform no validation at all:
a `SUMMARIZE_LOCAL` or `SUMMARIZE_CLOUD` request with empty `text` is
answered with `success: true` and the placeholder summary, and neither an
engine nor the Result Store is invoked for it — the backend, including its
trace of storage-primitive calls, is returned unchanged (the handlers
contain no engine path at all). -/
theorem c1_empty_text_not_rejected :
    ∀ (b : Backend) (now : Nat) (url : Option String),
      (Background.onMessage
          (Background.Msg.summarizeLocal { text := some "", url := url })
          b now).1
        = { success := true,
            summary := some Background.localPlaceholderSummary,
            mode := some AIMode.localMode, timestamp := some now }
      ∧ (Background.onMessage
          (Background.Msg.summarizeLocal { text := some "", url := url })
          b now).2 = b
      ∧ (Background.onMessage
          (Background.Msg.summarizeCloud { text := some "", url := url })
          b now).1
        = { success := true,
            summary := some Background.cloudPlaceholderSummary,
            mode := some AIMode.cloudMode, timestamp := some now }
      ∧ (Background.onMessage
          (Background.Msg.summarizeCloud { text := some "", url := url })
          b now).2 = b :=
  fun _ _ _ => ⟨rfl, rfl, rfl, rfl⟩

/-- C2, counterexample: a successfully answered `SUMMARIZE_LOCAL` request
persists nothing — starting from an empty store, after the handler replies
`success: true` the backend is unchanged (no storage call was made, the
trace is empty) and `getSummary` for the request's url still yields
nothing. -/
theorem c2_counterexample :
    (Background.onMessage
        (Background.Msg.summarizeLocal
          { text := some "hello world", url := some "https://example.com" })
        emptyBackend 42).1.success = true
    ∧ (Background.onMessage
        (Background.Msg.summarizeLocal
          { text := some "hello world", url := some "https://example.com" })
        emptyBackend 42).2 = emptyBackend
    ∧ (StorageManager.getSummary
        (Background.onMessage
          (Background.Msg.summarizeLocal
            { text := some "hello world", url := some "https://example.com" })
          emptyBackend 42).2 "https://example.com").2 = none :=
  ⟨rfl, rfl, rfl⟩

/-- C2 (amended): the summarize handlers reply with the content plus a
timestamp but never persist anything themselves — the backend is returned
unchanged, and `updateContext` (`recordVisit`) is never invoked in the
summarize flow; a Result is persisted only when a Surface separately sends
`SAVE_SUMMARY` (as the popup does on success), whose handler stores the
summary so that `getSummary` then returns it. -/
theorem c2_summarize_does_not_persist :
    ∀ (d : Background.RawSummarizeData) (b : Backend) (now : Nat),
      (Background.onMessage (Background.Msg.summarizeLocal d) b now).2 = b
      ∧ (Background.onMessage (Background.Msg.summarizeCloud d) b now).2 = b
      ∧ (∀ t, d.text = some t →
          (Background.onMessage (Background.Msg.summarizeLocal d) b now).1
            = { success := true,
                summary := some Background.localPlaceholderSummary,
                mode := some AIMode.localMode, timestamp := some now })
      ∧ (∀ (url content : String) (mode : AIMode),
          b.localGetFails = false → b.localSetFails = false →
          (∀ e ∈ b.summaries, e.2.timestamp < now) →
          (StorageManager.getSummary
              (Background.onMessage
                (Background.Msg.saveSummary
                  { url := url, summary := content, mode := mode }) b now).2
              url).2
            = some { url := url, summary := content, mode := mode,
                     timestamp := now }) := by
  intro d b now
  refine ⟨rfl, rfl, ?_, ?_⟩
  · intro t ht
    obtain ⟨tx, u⟩ := d
    cases ht
    rfl
  · intro url content mode hg hs hts
    exact saveSummary_getSummary_roundtrip b url content mode now hg hs hts

/-- C2, witness: the amended theorem applied at a concrete request — a
`SAVE_SUMMARY` for a fresh url on an empty, healthy backend makes the
summary retrievable. -/
theorem c2_witness :
    (StorageManager.getSummary
        (Background.onMessage
          (Background.Msg.saveSummary
            { url := "https://a.com", summary := "sum",
              mode := AIMode.localMode }) emptyBackend 7).2 "https://a.com").2
      = some { url := "https://a.com", summary := "sum",
               mode := AIMode.localMode, timestamp := 7 } :=
  (c2_summarize_does_not_persist { text := none, url := none } emptyBackend
      7).2.2.2 "https://a.com" "sum" AIMode.localMode rfl rfl (by decide)

/-- C10: for every well-formed `SAVE_SUMMARY` payload the reply is always
`{success: true}`, for every backend state — including every combination of
failing storage primitives — because `StorageManager.saveSummary` swallows
all errors and never rejects, so the handler's failure branch is
unreachable and a caller cannot observe a persistence failure through the
reply. -/
theorem c10_save_summary_reply_always_success :
    ∀ (b : Backend) (d : Background.SaveSummaryData) (now : Nat),
      (Background.onMessage (Background.Msg.saveSummary d) b now).1
        = { success := true } :=
  fun _ _ _ => rfl

set_option maxRecDepth 1000000 in
/-- C3: `saveSummary` creates the new entry with the current timestamp
(second conjunct, for a fresh timestamp), keeps the store at or below 100
entries whenever it was at or below 100 before the write (first conjunct),
and in the concrete 101-write scenario with distinct keys and strictly
increasing timestamps the store ends with exactly 100 entries, the
earliest-timestamped entry `u0` is the one evicted, and the survivors are
precisely the 100 newest (their timestamps are `100 … 1` in the store's
sorted order). -/
theorem c3_cap_and_eviction :
    (∀ (m : List (String × Summary)) (url content : String) (mode : AIMode)
        (now : Nat), m.length ≤ 100 →
        (StorageManager.saveSummaryPure m url content mode now).length ≤ 100)
    ∧ (∀ (m : List (String × Summary)) (url content : String) (mode : AIMode)
        (now : Nat), (∀ e ∈ m, e.2.timestamp < now) →
        getKey (StorageManager.saveSummaryPure m url content mode now) url
          = some { url := url, summary := content, mode := mode,
                   timestamp := now })
    ∧ c3Store.length = 100
    ∧ getKey c3Store "u0" = none
    ∧ c3Store.map (fun e => e.2.timestamp)
        = ((List.range 101).drop 1).reverse := by
  refine ⟨?_, ?_, by decide, by decide, by decide⟩
  · intro m url content mode now _
    unfold StorageManager.saveSummaryPure
    by_cases hlen :
        (setKey m url
          { url := url, summary := content, mode := mode,
            timestamp := now }).length > 100
    · rw [if_pos hlen]
      simp only [List.length_take]
      omega
    · rw [if_neg hlen]
      omega
  · intro m url content mode now hts
    exact getKey_saveSummaryPure_self m url content mode now hts

/-- C3, witness: the cap and creation conjuncts applied to an empty store. -/
theorem c3_witness :
    (StorageManager.saveSummaryPure [] "u" "c" AIMode.localMode 0).length
        ≤ 100
    ∧ getKey (StorageManager.saveSummaryPure [] "u" "c" AIMode.localMode 0)
        "u"
      = some { url := "u", summary := "c", mode := AIMode.localMode,
               timestamp := 0 } :=
  ⟨c3_cap_and_eviction.1 [] "u" "c" AIMode.localMode 0 (by decide),
   c3_cap_and_eviction.2.1 [] "u" "c" AIMode.localMode 0 (by decide)⟩

/-- The trim step of `updateContext` (`if > 10 then slice(-10)`) equals an
unconditional drop to the last 10 under truncated subtraction. -/
theorem trim_ite_drop (ss : List Summary) :
    (if ss.length > 10 then ss.drop (ss.length - 10) else ss)
      = ss.drop (ss.length - 10) := by
  by_cases h10 : ss.length > 10
  · rw [if_pos h10]
  · rw [if_neg h10]
    have h0 : ss.length - 10 = 0 := by omega
    rw [h0, List.drop_zero]

/-- C4: `updateContext` creates the `BrowsingContext` on the first call for
a key (the stored base has 0 visits and no summaries), increments `visits`
and sets `lastVisit := now` on every call, and when a summary is supplied
appends it and keeps exactly the last 10 (oldest dropped first); in the
concrete scenario of 11 calls for one domain with 11 distinct summaries,
`recentResults` ends at length 10 holding the 10 most recently supplied
summaries in supply order, with `visits = 11`. -/
theorem c4_recordVisit :
    (∀ (contexts : List (String × BrowsingContext)) (domain : String)
        (summary : Option Summary) (now : Nat),
        ∃ c, getKey (StorageManager.updateContextPure contexts domain summary
              now) domain = some c
          ∧ c.visits = (match getKey contexts domain with
              | some o => o.visits
              | none => 0) + 1
          ∧ c.lastVisit = now
          ∧ c.summaries = (
              let old := match getKey contexts domain with
                | some o => o.summaries
                | none => []
              match summary with
              | some s => (old ++ [s]).drop ((old ++ [s]).length - 10)
              | none => old))
    ∧ ((getKey c4Ctx "site").map fun c => c.summaries.map fun s => s.summary)
        = some (((List.range 11).drop 1).map toString)
    ∧ ((getKey c4Ctx "site").map fun c => c.visits) = some 11
    ∧ ((getKey c4Ctx "site").map fun c => c.summaries.length) = some 10 := by
  refine ⟨?_, by decide, by decide, by decide⟩
  intro contexts domain summary now
  unfold StorageManager.updateContextPure
  cases hk : getKey contexts domain with
  | none =>
      cases summary with
      | none =>
          exact ⟨_, getKey_setKey_self contexts domain _, rfl, rfl, rfl⟩
      | some s =>
          refine ⟨_, getKey_setKey_self contexts domain _, rfl, rfl, ?_⟩
          simp only [trim_ite_drop]
  | some o =>
      cases summary with
      | none =>
          exact ⟨_, getKey_setKey_self contexts domain _, rfl, rfl, rfl⟩
      | some s =>
          refine ⟨_, getKey_setKey_self contexts domain _, rfl, rfl, ?_⟩
          simp only [trim_ite_drop]

/-- C5: for every valid `(pageKey, content, engineKind)` triple,
`saveSummary` followed by `getSummary(pageKey)` returns a Result whose
content and engineKind are the ones just written, for every backend whose
storage primitives succeed and whose stored timestamps are older than the
write's `Date.now()` (the fresh entry then cannot be the eviction
victim). -/
theorem c5_put_get_roundtrip :
    ∀ (b : Backend) (url content : String) (mode : AIMode) (now : Nat),
      b.localGetFails = false → b.localSetFails = false →
      (∀ e ∈ b.summaries, e.2.timestamp < now) →
      (StorageManager.getSummary
          (StorageManager.saveSummary b url content mode now).1 url).2
        = some { url := url, summary := content, mode := mode,
                 timestamp := now } :=
  fun b url content mode now hg hs hts =>
    saveSummary_getSummary_roundtrip b url content mode now hg hs hts

/-- C5, witness: the round-trip at a concrete triple on an empty backend. -/
theorem c5_witness :
    (StorageManager.getSummary
        (StorageManager.saveSummary emptyBackend "https://w.com" "hello"
          AIMode.cloudMode 3).1 "https://w.com").2
      = some { url := "https://w.com", summary := "hello",
               mode := AIMode.cloudMode, timestamp := 3 } :=
  c5_put_get_roundtrip emptyBackend "https://w.com" "hello" AIMode.cloudMode
    3 rfl rfl (by decide)

/-- Backend for the C6 counterexample: non-empty summaries, stored settings,
and a `chrome.storage.sync.clear` that fails while `local.clear` works. -/
def c6Backend : Backend :=
  { summaries := [("https://a.com",
      { url := "https://a.com", summary := "s", mode := AIMode.localMode,
        timestamp := 1 })],
    contexts := [],
    settings := some { theme := some Theme.light },
    syncClearFails := true }

/-- C6, counterexample: `clearAll` on a backend whose sync clear fails after
the local clear succeeded swallows the failure (nothing is raised) but is
**not** a no-op — the local partition is already cleared, so a
persistence-layer failure does not always degrade to a no-op. -/
theorem c6_counterexample :
    (StorageManager.clearAll c6Backend).2 = none
    ∧ storeData (StorageManager.clearAll c6Backend).1 ≠ storeData c6Backend :=
  ⟨rfl, by decide⟩

/-- C6 (amended): no write operation ever raises to its caller (every
failure is caught and logged); `saveSummary` and `updateContext` degrade to
a no-op on any storage failure, and `setSettings` does when its write fails;
but `setSettings` whose settings *read* fails overwrites the stored settings
with just the update, and `clearAll` is only guaranteed to be a no-op when
its *first* clear fails — a sync-clear failure after a successful local
clear leaves a partially cleared store. -/
theorem c6_failure_semantics :
    ∀ (b : Backend) (url content : String) (mode : AIMode) (now : Nat)
      (domain : String) (s : Option Summary) (upd : PartialSettings),
      ((StorageManager.saveSummary b url content mode now).2 = none
        ∧ (StorageManager.updateContext b domain s now).2 = none
        ∧ (StorageManager.setSettings b upd).2 = none
        ∧ (StorageManager.clearAll b).2 = none)
      ∧ (b.localGetFails = true ∨ b.localSetFails = true →
          storeData (StorageManager.saveSummary b url content mode now).1
              = storeData b
          ∧ storeData (StorageManager.updateContext b domain s now).1
              = storeData b)
      ∧ (b.syncSetFails = true →
          storeData (StorageManager.setSettings b upd).1 = storeData b)
      ∧ (b.syncGetFails = true → b.syncSetFails = false →
          (StorageManager.setSettings b upd).1.settings
            = some (StorageManager.mergeSettings none upd))
      ∧ (b.localClearFails = true →
          storeData (StorageManager.clearAll b).1 = storeData b) := by
  intro b url content mode now domain s upd
  refine ⟨⟨rfl, rfl, rfl, rfl⟩, fun h => ?_, fun h => ?_, fun hg hs => ?_,
    fun h => ?_⟩
  · exact ⟨saveSummary_noop_on_failure b url content mode now h,
      updateContext_noop_on_failure b domain s now h⟩
  · exact setSettings_noop_on_write_failure b upd h
  · exact setSettings_overwrites_on_read_failure b upd hg hs
  · exact clearAll_noop_on_first_failure b h

/-- C6, witness: the no-op conjunct applied to a backend whose local write
fails. -/
theorem c6_witness :
    storeData (StorageManager.saveSummary
        { emptyBackend with localSetFails := true } "u" "c" AIMode.localMode
        0).1
      = storeData { emptyBackend with localSetFails := true } :=
  ((c6_failure_semantics { emptyBackend with localSetFails := true } "u" "c"
      AIMode.localMode 0 "d" none {}).2.1 (Or.inr rfl)).1

/-- C7, counterexample: `AIService.streamAnalysis` on a request whose
`text` field is `undefined` lets the resulting `TypeError` escape to its
caller — its `catch` block rethrows (`throw error`) — instead of producing a
structured `{success:false, error}` reply, so not every engine-facing entry
point keeps faults from escaping. -/
theorem c7_counterexample :
    AIService.streamAnalysis {} = Except.error typeErrorMessage := rfl

/-- C7 (amended): the background message handlers and the non-streaming
`AIService` calls turn an internal exception into a structured
`{success:false, error}` reply (shown on the one fallible step, the
`text` property access), and the listener replies a structured error for
unknown message types; `streamAnalysis` alone rethrows the exception to its
caller instead of replying. -/
theorem c7_structured_errors_except_stream :
    ∀ (data : Background.RawSummarizeData) (req : RawSummarizeRequest)
      (b : Backend) (now : Nat) (ty : String),
      (data.text = none →
          Background.handleLocalSummarization data now
            = { success := false, error := some typeErrorMessage }
          ∧ Background.handleCloudSummarization data now
            = { success := false, error := some typeErrorMessage })
      ∧ (req.text = none →
          AIService.summarizeLocal req now
            = { success := false, error := some typeErrorMessage }
          ∧ AIService.analyzeCloud req now
            = { success := false, error := some typeErrorMessage })
      ∧ (req.text = none →
          AIService.streamAnalysis req = Except.error typeErrorMessage)
      ∧ (Background.onMessage (Background.Msg.unknown ty) b now).1
          = { success := false, error := some "Unknown message type" } := by
  intro data req b now ty
  refine ⟨?_, ?_, ?_, rfl⟩
  · intro h
    obtain ⟨tx, u⟩ := data
    cases h
    exact ⟨rfl, rfl⟩
  · intro h
    obtain ⟨tx, u, p⟩ := req
    cases h
    exact ⟨rfl, rfl⟩
  · intro h
    obtain ⟨tx, u, p⟩ := req
    cases h
    rfl

/-- C7, witness: the handler conjunct applied to a concrete malformed
message. -/
theorem c7_witness :
    Background.handleLocalSummarization {} 5
      = { success := false, error := some typeErrorMessage } :=
  ((c7_structured_errors_except_stream {} {} emptyBackend 5 "PING").1 rfl).1

/-- C8: after a `mouseup`, the floating control's `has-selection` state is
set exactly when the active selection's trimmed length exceeds 50
characters, and cleared otherwise; in particular a trimmed selection of
length exactly 50 leaves it cleared, and one of length 51 sets it. -/
theorem c8_selection_threshold :
    (∀ sel : Option String,
        mouseupSelectionState sel = true
          ↔ ∃ t, sel = some t ∧ 50 < (jsTrim t).length)
    ∧ mouseupSelectionState
        (some "01234567890123456789012345678901234567890123456789") = false
    ∧ mouseupSelectionState (some (String.mk (List.replicate 51 'a')))
        = true := by
  refine ⟨?_, by decide, by decide⟩
  intro sel
  cases sel with
  | none => simp [mouseupSelectionState]
  | some s =>
      have hred : mouseupSelectionState (some s)
          = (!(jsTrim s).isEmpty && decide (50 < (jsTrim s).length)) := rfl
      rw [hred]
      constructor
      · intro h
        rw [Bool.and_eq_true] at h
        exact ⟨s, rfl, by simpa using h.2⟩
      · rintro ⟨t, ht, hlen⟩
        rw [Option.some_inj] at ht
        subst ht
        rw [Bool.and_eq_true]
        have hne : jsTrim s ≠ "" := by
          intro he
          rw [he] at hlen
          simp at hlen
        refine ⟨?_, by simpa using hlen⟩
        have hni : ¬ (jsTrim s).isEmpty = true :=
          fun hemp => hne ((String.isEmpty_iff (jsTrim s)).mp hemp)
        simpa using hni

/-- C9: `setSettings` merges a partial update over the currently stored
settings: when the read and write primitives succeed and a settings object
is stored, the new stored value is the spread merge, in which every field
not named in the update keeps its previously stored value. -/
theorem c9_setSettings_merge_preserves :
    ∀ (b : Backend) (cur upd : PartialSettings),
      b.syncGetFails = false → b.syncSetFails = false →
      b.settings = some cur →
      (StorageManager.setSettings b upd).1.settings
          = some (StorageManager.mergeSettings (some cur) upd)
      ∧ (upd.theme = none →
          (StorageManager.mergeSettings (some cur) upd).theme = cur.theme)
      ∧ (upd.defaultAIMode = none →
          (StorageManager.mergeSettings (some cur) upd).defaultAIMode
            = cur.defaultAIMode)
      ∧ (upd.enableSpeech = none →
          (StorageManager.mergeSettings (some cur) upd).enableSpeech
            = cur.enableSpeech)
      ∧ (upd.autoSummarize = none →
          (StorageManager.mergeSettings (some cur) upd).autoSummarize
            = cur.autoSummarize) := by
  intro b cur upd hg hs hst
  refine ⟨?_, fun h => ?_, fun h => ?_, fun h => ?_, fun h => ?_⟩
  · simp [StorageManager.setSettings, StorageManager.setSettingsBody,
      StorageManager.getSettings, syncGetSettings, syncSetSettings, swallow,
      hg, hs, hst]
  · simp [StorageManager.mergeSettings, h]
  · simp [StorageManager.mergeSettings, h]
  · simp [StorageManager.mergeSettings, h]
  · simp [StorageManager.mergeSettings, h]

/-- A fully populated settings object for the C9 witness. -/
def fullSettings : PartialSettings :=
  { theme := some Theme.light, defaultAIMode := some AIMode.localMode,
    enableSpeech := some false, autoSummarize := some true }

/-- C9, witness: updating only the theme on a healthy backend stores the
merge, and the `enableSpeech` field keeps its stored value. -/
theorem c9_witness :
    (StorageManager.setSettings
        { emptyBackend with settings := some fullSettings }
        { theme := some Theme.dark }).1.settings
      = some (StorageManager.mergeSettings (some fullSettings)
          { theme := some Theme.dark })
    ∧ (StorageManager.mergeSettings (some fullSettings)
        { theme := some Theme.dark }).enableSpeech
      = fullSettings.enableSpeech :=
  ⟨(c9_setSettings_merge_preserves
      { emptyBackend with settings := some fullSettings } fullSettings
      { theme := some Theme.dark } rfl rfl rfl).1,
   (c9_setSettings_merge_preserves
      { emptyBackend with settings := some fullSettings } fullSettings
      { theme := some Theme.dark } rfl rfl rfl).2.2.2.1 rfl⟩

end ContextAware
